import Mathlib

/-!
Verification of `scripts/calculate_apr.py` from the lumen-later repository.

The script is a closed-form financial model: a parameter set (scalar rates
plus three fee-distribution records) feeds a fixed chain of arithmetic
derivations ending in an LP APR, and a small command-line layer applies
`key=value` overrides to the built-in defaults before calculating.

The embedding below models Python numbers by exact rationals (`ℚ`), and
Python's true division — which raises `ZeroDivisionError` on a zero
divisor instead of returning NaN/Inf — by an `Except`-valued division.
The command-line loop is modelled on the argument strings themselves,
with `split('=')` and `float(value)` translated to executable Lean
functions; `float()`'s whitespace stripping, underscore digit
separators and `inf`/`nan` literals are covered, and a run that
overrides a parameter to an infinity or NaN — which Python carries
through IEEE-754 arithmetic that exact rationals cannot express — is
marked as leaving the model rather than being misreported.
-/

set_option autoImplicit false

namespace CalculateApr

/-- A three-way fee split record, as in `merchant_fee_dist` / `late_fee_dist`
(keys `lp_yield`, `treasury`, `insurance_fund`). -/
structure Dist3 where
  lp_yield : ℚ
  treasury : ℚ
  insurance_fund : ℚ
  deriving DecidableEq, Repr

/-- The four-way split record `liquidation_penalty_dist`
(keys `liquidator`, `lp_yield`, `treasury`, `insurance_fund`). -/
structure Dist4 where
  liquidator : ℚ
  lp_yield : ℚ
  treasury : ℚ
  insurance_fund : ℚ
  deriving DecidableEq, Repr

/-- The parameter set: the keys of the Python `params` dict. The eight
scalar fields are numeric (overridable from the command line); the three
distribution fields are nested dicts (not overridable). -/
structure Params where
  total_liquidity : ℚ
  utilization_ratio : ℚ
  loan_term_days : ℚ
  merchant_fee_rate : ℚ
  late_interest_apr : ℚ
  liquidation_penalty_rate : ℚ
  delinquency_rate : ℚ
  liquidation_rate : ℚ
  merchant_fee_dist : Dist3
  late_fee_dist : Dist3
  liquidation_penalty_dist : Dist4
  deriving DecidableEq, Repr

/-- `DEFAULT_PARAMS` of the script, line for line. -/
def DEFAULT_PARAMS : Params where
  total_liquidity := 1000000
  utilization_ratio := 0.8
  loan_term_days := 30
  merchant_fee_rate := 0.015
  late_interest_apr := 0.30
  liquidation_penalty_rate := 0.05
  delinquency_rate := 0.05
  liquidation_rate := 0.10
  merchant_fee_dist := { lp_yield := 0.7, treasury := 0.15, insurance_fund := 0.15 }
  late_fee_dist := { lp_yield := 0.8, treasury := 0.1, insurance_fund := 0.1 }
  liquidation_penalty_dist :=
    { liquidator := 0.5, lp_yield := 0.2, treasury := 0.15, insurance_fund := 0.15 }

/-- The one fatal error the calculation itself can raise: Python's
`ZeroDivisionError` from `/` on a zero divisor. -/
inductive CalcError where
  | divisionByZero
  deriving DecidableEq, Repr

/-- Python true division `a / b`: raises `ZeroDivisionError` when `b == 0`,
never returns NaN or Inf. -/
def pydiv (a b : ℚ) : Except CalcError ℚ :=
  if b = 0 then .error .divisionByZero else .ok (a / b)

/-- All quantities derived by `calculate_apr`, plus the echoed inputs that
the report prints (pool size and utilization). -/
structure Report where
  total_liquidity : ℚ
  utilization_ratio : ℚ
  lent_amount : ℚ
  loan_cycles_per_year : ℚ
  total_annual_loan_volume : ℚ
  total_merchant_fee : ℚ
  delinquent_volume : ℚ
  avg_late_period_in_years : ℚ
  total_late_interest : ℚ
  liquidated_volume : ℚ
  total_liquidation_penalty : ℚ
  lp_revenue : ℚ
  treasury_revenue : ℚ
  insurance_fund_revenue : ℚ
  liquidator_revenue : ℚ
  lp_apr : ℚ
  deriving DecidableEq, Repr

/-- The body of `calculate_apr(params)`, statement for statement. The two
`/` operations go through `pydiv`, so a zero `loan_term_days` or a zero
`total_liquidity` aborts the computation exactly where Python raises. -/
def calculate_apr (params : Params) : Except CalcError Report := do
  let lent_amount := params.total_liquidity * params.utilization_ratio
  let loan_cycles_per_year ← pydiv 365 params.loan_term_days
  let total_annual_loan_volume := lent_amount * loan_cycles_per_year
  let total_merchant_fee := total_annual_loan_volume * params.merchant_fee_rate
  let delinquent_volume := total_annual_loan_volume * params.delinquency_rate
  let avg_late_period_in_years ← pydiv params.loan_term_days 365
  let total_late_interest :=
    delinquent_volume * params.late_interest_apr * avg_late_period_in_years
  let liquidated_volume := delinquent_volume * params.liquidation_rate
  let total_liquidation_penalty := liquidated_volume * params.liquidation_penalty_rate
  let dist_merchant := params.merchant_fee_dist
  let dist_late := params.late_fee_dist
  let dist_liq := params.liquidation_penalty_dist
  let lp_revenue :=
    total_merchant_fee * dist_merchant.lp_yield +
    total_late_interest * dist_late.lp_yield +
    total_liquidation_penalty * dist_liq.lp_yield
  let treasury_revenue :=
    total_merchant_fee * dist_merchant.treasury +
    total_late_interest * dist_late.treasury +
    total_liquidation_penalty * dist_liq.treasury
  let insurance_fund_revenue :=
    total_merchant_fee * dist_merchant.insurance_fund +
    total_late_interest * dist_late.insurance_fund +
    total_liquidation_penalty * dist_liq.insurance_fund
  let liquidator_revenue := total_liquidation_penalty * dist_liq.liquidator
  let ratio ← pydiv lp_revenue params.total_liquidity
  let lp_apr := ratio * 100
  pure {
    total_liquidity := params.total_liquidity
    utilization_ratio := params.utilization_ratio
    lent_amount := lent_amount
    loan_cycles_per_year := loan_cycles_per_year
    total_annual_loan_volume := total_annual_loan_volume
    total_merchant_fee := total_merchant_fee
    delinquent_volume := delinquent_volume
    avg_late_period_in_years := avg_late_period_in_years
    total_late_interest := total_late_interest
    liquidated_volume := liquidated_volume
    total_liquidation_penalty := total_liquidation_penalty
    lp_revenue := lp_revenue
    treasury_revenue := treasury_revenue
    insurance_fund_revenue := insurance_fund_revenue
    liquidator_revenue := liquidator_revenue
    lp_apr := lp_apr
  }

/-- The same derivation chain written with total `ℚ` division: the value
`calculate_apr` returns whenever neither division raises. -/
def reportOf (p : Params) : Report :=
  let lent_amount := p.total_liquidity * p.utilization_ratio
  let loan_cycles_per_year := 365 / p.loan_term_days
  let total_annual_loan_volume := lent_amount * loan_cycles_per_year
  let total_merchant_fee := total_annual_loan_volume * p.merchant_fee_rate
  let delinquent_volume := total_annual_loan_volume * p.delinquency_rate
  let avg_late_period_in_years := p.loan_term_days / 365
  let total_late_interest :=
    delinquent_volume * p.late_interest_apr * avg_late_period_in_years
  let liquidated_volume := delinquent_volume * p.liquidation_rate
  let total_liquidation_penalty := liquidated_volume * p.liquidation_penalty_rate
  let lp_revenue :=
    total_merchant_fee * p.merchant_fee_dist.lp_yield +
    total_late_interest * p.late_fee_dist.lp_yield +
    total_liquidation_penalty * p.liquidation_penalty_dist.lp_yield
  let treasury_revenue :=
    total_merchant_fee * p.merchant_fee_dist.treasury +
    total_late_interest * p.late_fee_dist.treasury +
    total_liquidation_penalty * p.liquidation_penalty_dist.treasury
  let insurance_fund_revenue :=
    total_merchant_fee * p.merchant_fee_dist.insurance_fund +
    total_late_interest * p.late_fee_dist.insurance_fund +
    total_liquidation_penalty * p.liquidation_penalty_dist.insurance_fund
  let liquidator_revenue := total_liquidation_penalty * p.liquidation_penalty_dist.liquidator
  let lp_apr := lp_revenue / p.total_liquidity * 100
  {
    total_liquidity := p.total_liquidity
    utilization_ratio := p.utilization_ratio
    lent_amount := lent_amount
    loan_cycles_per_year := loan_cycles_per_year
    total_annual_loan_volume := total_annual_loan_volume
    total_merchant_fee := total_merchant_fee
    delinquent_volume := delinquent_volume
    avg_late_period_in_years := avg_late_period_in_years
    total_late_interest := total_late_interest
    liquidated_volume := liquidated_volume
    total_liquidation_penalty := total_liquidation_penalty
    lp_revenue := lp_revenue
    treasury_revenue := treasury_revenue
    insurance_fund_revenue := insurance_fund_revenue
    liquidator_revenue := liquidator_revenue
    lp_apr := lp_apr
  }

lemma calculate_apr_ok (p : Params) (h1 : p.loan_term_days ≠ 0) (h2 : p.total_liquidity ≠ 0) :
    calculate_apr p = .ok (reportOf p) := by
  simp [calculate_apr, reportOf, pydiv, h1, h2,
    (by norm_num : (365 : ℚ) ≠ 0), Except.bind, Bind.bind, pure, Except.pure]

lemma calculate_apr_err (p : Params) (h : p.loan_term_days = 0 ∨ p.total_liquidity = 0) :
    calculate_apr p = .error .divisionByZero := by
  rcases h with h | h
  · simp [calculate_apr, pydiv, h, Except.bind, Bind.bind]
  · by_cases h1 : p.loan_term_days = 0
    · simp [calculate_apr, pydiv, h1, Except.bind, Bind.bind]
    · simp [calculate_apr, pydiv, h1, h,
        (by norm_num : (365 : ℚ) ≠ 0), Except.bind, Bind.bind]

/-! ### The command-line layer (`__main__`) -/

/-- Python `s.split('=')` on the character list: the list always has one
more element than the number of `=` characters, so a plain argument gives
one piece, `key=value` gives two, and two `=` give three. -/
def splitEqChars : List Char → List (List Char)
  | [] => [[]]
  | c :: rest =>
    if c = '=' then [] :: splitEqChars rest
    else
      match splitEqChars rest with
      | [] => [[c]]
      | piece :: pieces => (c :: piece) :: pieces

/-- Python `arg.split('=')`. -/
def pySplitEq (s : String) : List String :=
  (splitEqChars s.data).map List.asString

/-- The value of a decimal digit character. -/
def digitVal (c : Char) : ℕ := c.toNat - 48

/-- The natural number a digit run denotes. -/
def digitsToNat (cs : List Char) : ℕ :=
  cs.foldl (fun a c => a * 10 + digitVal c) 0

/-- Whitespace stripped by `float()` around its argument: ASCII space,
tab, CR, LF, vertical tab and form feed. -/
def pySpace (c : Char) : Bool :=
  c.isWhitespace || c = '\x0b' || c = '\x0c'

/-- The argument of `float()` with surrounding whitespace stripped. -/
def stripWs (s : String) : List Char :=
  ((s.data.dropWhile pySpace).reverse.dropWhile pySpace).reverse

/-- An optional leading sign: the signum and the remaining input. -/
def parseSign : List Char → ℤ × List Char
  | '+' :: rest => (1, rest)
  | '-' :: rest => (-1, rest)
  | cs => (1, cs)

/-- Continuation of a digit run after at least one digit: more digits,
with `_` allowed only when both neighbours are digits, as `float()`
accepts since Python 3.6. `none` when a `_` is misplaced. -/
def digitsUCont : List Char → Option (List Char × List Char)
  | [] => some ([], [])
  | '_' :: rest =>
    match rest with
    | c :: rest2 =>
      if c.isDigit then (digitsUCont rest2).map (fun dr => (c :: dr.1, dr.2))
      else none
    | [] => none
  | c :: rest =>
    if c.isDigit then (digitsUCont rest).map (fun dr => (c :: dr.1, dr.2))
    else some ([], c :: rest)

/-- A digit run in `float()` syntax: one digit, then digits with interior
underscores; yields the digits with underscores removed and the rest.
`none` when the input does not start with a digit or an underscore is
not surrounded by digits. -/
def digitsU : List Char → Option (List Char × List Char)
  | c :: rest =>
    if c.isDigit then (digitsUCont rest).map (fun dr => (c :: dr.1, dr.2))
    else none
  | [] => none

/-- The mantissa of a `float()` literal: `digits`, `digits.`,
`digits.digits` or `.digits`, with underscore separators as above. -/
def parseMantissaU (cs : List Char) : Option (ℚ × List Char) :=
  match cs with
  | '.' :: rest =>
    match digitsU rest with
    | some (fp, rem) => some ((digitsToNat fp : ℚ) / 10 ^ fp.length, rem)
    | none => none
  | _ =>
    match digitsU cs with
    | none => none
    | some (ip, rest) =>
      match rest with
      | '.' :: rest2 =>
        match digitsU rest2 with
        | some (fp, rem) =>
          some ((digitsToNat ip : ℚ) + (digitsToNat fp : ℚ) / 10 ^ fp.length, rem)
        | none => some ((digitsToNat ip : ℚ), rest2)
      | _ => some ((digitsToNat ip : ℚ), rest)

/-- The exponent part of a `float()` literal: empty, or `e`/`E`, an
optional sign, and a digit run consuming the whole rest. -/
def parseExpU : List Char → Option ℤ
  | [] => some 0
  | c :: rest =>
    if c = 'e' ∨ c = 'E' then
      let (sgn, rest2) := parseSign rest
      match digitsU rest2 with
      | some (ds, []) => some (sgn * digitsToNat ds)
      | _ => none
    else none

/-- What Python `float(value)` can return: a finite value (idealised
here to the exact rational the literal denotes), one of the two
infinities from `inf`/`infinity` literals, or NaN from `nan`. -/
inductive PyVal where
  | finite (q : ℚ)
  | inf
  | negInf
  | nan
  deriving DecidableEq, Repr

/-- Python `float(value)`: whitespace is stripped, an optional sign is
followed by `inf`/`infinity`/`nan` in any case or by a decimal literal
with optional fraction, exponent and underscore digit separators. Any
other string raises `ValueError` (`none` here). Unicode digits and
non-ASCII spaces, which CPython also maps, are outside this model. -/
def pyFloat (s : String) : Option PyVal :=
  let cs := stripWs s
  let (sgn, body) := parseSign cs
  let lower := body.map Char.toLower
  if lower = ['i', 'n', 'f'] ∨ lower = ['i', 'n', 'f', 'i', 'n', 'i', 't', 'y'] then
    some (if sgn = 1 then .inf else .negInf)
  else if lower = ['n', 'a', 'n'] then
    some .nan
  else
    match parseMantissaU body with
    | none => none
    | some (m, rest) =>
      match parseExpU rest with
      | none => none
      | some e => some (.finite ((sgn : ℚ) * m * (10 : ℚ) ^ e))

/-- The eight numeric (int/float) keys of the params dict — exactly the
fields for which `isinstance(params[key], (int, float))` holds. -/
inductive NumField where
  | total_liquidity
  | utilization_ratio
  | loan_term_days
  | merchant_fee_rate
  | late_interest_apr
  | liquidation_penalty_rate
  | delinquency_rate
  | liquidation_rate
  deriving DecidableEq, Repr, Fintype

/-- The test `key in params and isinstance(params[key], (int, float))`:
which field, if any, a key string names. The three `_dist` keys are in
the dict but hold dicts, so they fail the numeric test like unknown keys. -/
def numericKey (key : String) : Option NumField :=
  if key = "total_liquidity" then some .total_liquidity
  else if key = "utilization_ratio" then some .utilization_ratio
  else if key = "loan_term_days" then some .loan_term_days
  else if key = "merchant_fee_rate" then some .merchant_fee_rate
  else if key = "late_interest_apr" then some .late_interest_apr
  else if key = "liquidation_penalty_rate" then some .liquidation_penalty_rate
  else if key = "delinquency_rate" then some .delinquency_rate
  else if key = "liquidation_rate" then some .liquidation_rate
  else none

/-- `params[key] = float(value)` for a numeric key. -/
def applyOverride (p : Params) (f : NumField) (v : ℚ) : Params :=
  match f with
  | .total_liquidity => { p with total_liquidity := v }
  | .utilization_ratio => { p with utilization_ratio := v }
  | .loan_term_days => { p with loan_term_days := v }
  | .merchant_fee_rate => { p with merchant_fee_rate := v }
  | .late_interest_apr => { p with late_interest_apr := v }
  | .liquidation_penalty_rate => { p with liquidation_penalty_rate := v }
  | .delinquency_rate => { p with delinquency_rate := v }
  | .liquidation_rate => { p with liquidation_rate := v }

/-- Reading back a numeric field. -/
def getField (p : Params) (f : NumField) : ℚ :=
  match f with
  | .total_liquidity => p.total_liquidity
  | .utilization_ratio => p.utilization_ratio
  | .loan_term_days => p.loan_term_days
  | .merchant_fee_rate => p.merchant_fee_rate
  | .late_interest_apr => p.late_interest_apr
  | .liquidation_penalty_rate => p.liquidation_penalty_rate
  | .delinquency_rate => p.delinquency_rate
  | .liquidation_rate => p.liquidation_rate

/-- How the argument loop can stop early. `invalidFormat` is the
`ValueError` caught at the end of `__main__`, which prints
`Error: Invalid argument format.` and exits 1. `nonFiniteOverride` is
not a program error: Python stores the infinite or NaN float and keeps
going, but the resulting parameter set has no exact-rational
counterpart, so this development stops tracking the run there instead
of misreporting it. -/
inductive LoopExit where
  | invalidFormat
  | nonFiniteOverride
  deriving DecidableEq, Repr

/-- One iteration of the argument loop. `key, value = arg.split('=')`
raises `ValueError` unless the split has exactly two pieces; a numeric
key parses the value with `float` (whose failure is the same
`ValueError`, and whose non-finite successes leave this model); any
other key prints a warning naming it and changes nothing. -/
def step (p : Params) (arg : String) : Except LoopExit (Params × Option String) :=
  match pySplitEq arg with
  | [key, value] =>
    match numericKey key with
    | some f =>
      match pyFloat value with
      | some (.finite v) => .ok (applyOverride p f v, none)
      | some _ => .error .nonFiniteOverride
      | none => .error .invalidFormat
    | none => .ok (p, some key)
  | _ => .error .invalidFormat

/-- The whole `for arg in sys.argv[1:]` loop: the final params and the
keys warned about, or an early exit. -/
def processArgs (p : Params) : List String → Except LoopExit (Params × List String)
  | [] => .ok (p, [])
  | a :: rest => do
    let (p2, w) ← step p a
    let (p3, ws) ← processArgs p2 rest
    .ok (p3, w.toList ++ ws)

/-- The outcomes of a run this development distinguishes: the
argument-format error (exit 1, no calculation), an uncaught
`ZeroDivisionError` (no report), the printed report (exit 0), or a run
that assigned an infinite or NaN parameter — in Python such a run goes
on and prints IEEE values, which exact rationals cannot express, so it
is set apart rather than misreported. Warnings carry the offending
keys. -/
inductive ProgResult where
  | argError
  | calcError (warnings : List String) (e : CalcError)
  | report (warnings : List String) (r : Report)
  | nonFiniteRun
  deriving DecidableEq, Repr

/-- Arguments on which the loop body raises `ValueError`: the split does
not give exactly two pieces, or the key is numeric and `float(value)`
fails. An unknown or non-numeric key never reaches `float`, and a value
`float` accepts as infinite or NaN is not fatal. -/
def fatalArg (a : String) : Bool :=
  match pySplitEq a with
  | [k, v] => (numericKey k).isSome && (pyFloat v).isNone
  | _ => true

/-- Whether processing argument `a` assigns numeric field `f`. -/
def assigns (a : String) (f : NumField) : Bool :=
  match pySplitEq a with
  | [k, _] => decide (numericKey k = some f)
  | _ => false

/-- `__main__`: copy the defaults, apply the overrides, then calculate. -/
def runMain (args : List String) : ProgResult :=
  match processArgs DEFAULT_PARAMS args with
  | .error .invalidFormat => .argError
  | .error .nonFiniteOverride => .nonFiniteRun
  | .ok (p, ws) =>
    match calculate_apr p with
    | .error e => .calcError ws e
    | .ok r => .report ws r

/-! ### Helper lemmas -/

lemma calculate_apr_ok_inv (p : Params) (r : Report) (hr : calculate_apr p = .ok r) :
    p.loan_term_days ≠ 0 ∧ p.total_liquidity ≠ 0 ∧ r = reportOf p := by
  by_cases h1 : p.loan_term_days = 0
  · rw [calculate_apr_err p (.inl h1)] at hr; cases hr
  · by_cases h2 : p.total_liquidity = 0
    · rw [calculate_apr_err p (.inr h2)] at hr; cases hr
    · rw [calculate_apr_ok p h1 h2] at hr
      cases hr
      exact ⟨h1, h2, rfl⟩

lemma dist_conservation (MF LI LP a1 a2 a3 b1 b2 b3 c0 c1 c2 c3 : ℚ)
    (ha : a1 + a2 + a3 = 1) (hb : b1 + b2 + b3 = 1) (hc : c0 + c1 + c2 + c3 = 1) :
    (MF * a1 + LI * b1 + LP * c1) + (MF * a2 + LI * b2 + LP * c2) +
      (MF * a3 + LI * b3 + LP * c3) + LP * c0 = MF + LI + LP := by
  linear_combination MF * ha + LI * hb + LP * hc

lemma fatalArg_def (a : String) (h : fatalArg a = true) :
    (∀ k v, pySplitEq a = [k, v] → (numericKey k).isSome ∧ pyFloat v = none) := by
  intro k v hkv
  unfold fatalArg at h
  rw [hkv] at h
  simp only [Bool.and_eq_true, Option.isNone_iff_eq_none] at h
  exact h

lemma getField_applyOverride (p : Params) (f g : NumField) (v : ℚ) :
    getField (applyOverride p f v) g = if g = f then v else getField p g := by
  cases f <;> cases g <;> simp [applyOverride, getField]

lemma applyOverride_dists (p : Params) (f : NumField) (v : ℚ) :
    (applyOverride p f v).merchant_fee_dist = p.merchant_fee_dist ∧
    (applyOverride p f v).late_fee_dist = p.late_fee_dist ∧
    (applyOverride p f v).liquidation_penalty_dist = p.liquidation_penalty_dist := by
  cases f <;> exact ⟨rfl, rfl, rfl⟩

lemma processArgs_append (p : Params) (xs ys : List String) :
    processArgs p (xs ++ ys) =
      (processArgs p xs).bind fun qw =>
        (processArgs qw.1 ys).bind fun qw2 => .ok (qw2.1, qw.2 ++ qw2.2) := by
  induction xs generalizing p with
  | nil =>
    cases hy : processArgs p ys with
    | error e => simp [processArgs, hy, Except.bind, Bind.bind]
    | ok qw => simp [processArgs, hy, Except.bind, Bind.bind]
  | cons a rest ih =>
    cases ha : step p a with
    | error e => simp [processArgs, ha, Except.bind, Bind.bind]
    | ok pw =>
      obtain ⟨p2, w⟩ := pw
      simp only [List.cons_append, processArgs, ha, Except.bind, Bind.bind, bind,
        List.append_eq]
      rw [ih p2]
      cases hx : processArgs p2 rest with
      | error e => simp [hx, Except.bind, Bind.bind]
      | ok qw =>
        obtain ⟨q, ws⟩ := qw
        cases hy : processArgs q ys with
        | error e => simp [hx, hy, Except.bind, Bind.bind]
        | ok qw2 => simp [hx, hy, Except.bind, Bind.bind, List.append_assoc]

lemma step_preserves (p q : Params) (w : Option String) (a : String) (f : NumField)
    (hna : assigns a f = false) (h : step p a = .ok (q, w)) :
    getField q f = getField p f := by
  unfold step at h
  unfold assigns at hna
  rcases hsp : pySplitEq a with _ | ⟨k, _ | ⟨v, _ | ⟨c, cs⟩⟩⟩ <;> rw [hsp] at h hna
  · cases h
  · cases h
  · have hna2 : decide (numericKey k = some f) = false := hna
    have h2 :
        (match numericKey k with
          | some g =>
            match pyFloat v with
            | some (PyVal.finite val) => Except.ok (applyOverride p g val, none)
            | some _ => Except.error LoopExit.nonFiniteOverride
            | none => Except.error LoopExit.invalidFormat
          | none => Except.ok (p, some k)) = Except.ok (q, w) := h
    cases hk : numericKey k with
    | none =>
      rw [hk] at h2
      cases h2
      rfl
    | some g =>
      rw [hk] at h2 hna2
      have hgf : g ≠ f := by
        intro hgf
        rw [hgf] at hna2
        simp at hna2
      cases hv : pyFloat v with
      | none => rw [hv] at h2; cases h2
      | some val =>
        rw [hv] at h2
        cases val with
        | finite vq =>
          cases h2
          rw [getField_applyOverride]
          exact if_neg (fun hfg => hgf hfg.symm)
        | inf => cases h2
        | negInf => cases h2
        | nan => cases h2
  · cases h

lemma processArgs_preserves (p : Params) (args : List String) (q : Params) (ws : List String)
    (f : NumField) (hna : ∀ b ∈ args, assigns b f = false)
    (h : processArgs p args = .ok (q, ws)) :
    getField q f = getField p f := by
  induction args generalizing p ws with
  | nil =>
    have h2 : Except.ok (ε := LoopExit) (p, ([] : List String)) = Except.ok (q, ws) := h
    cases h2
    rfl
  | cons a rest ih =>
    unfold processArgs at h
    cases ha : step p a with
    | error e =>
      rw [ha] at h
      simp only [Except.bind, Bind.bind, bind] at h
      cases h
    | ok pw =>
      obtain ⟨p2, w⟩ := pw
      rw [ha] at h
      simp only [Except.bind, Bind.bind, bind] at h
      cases hrest : processArgs p2 rest with
      | error e =>
        rw [hrest] at h
        cases h
      | ok qw =>
        obtain ⟨q2, ws2⟩ := qw
        rw [hrest] at h
        have h2 : Except.ok (ε := LoopExit) (q2, w.toList ++ ws2) = Except.ok (q, ws) := h
        cases h2
        have hstep := step_preserves p p2 w a f (hna a (by simp)) ha
        have hrec := ih p2 ws2 (fun b hb => hna b (by simp [hb])) hrest
        rw [hrec, hstep]

/-! ### Claim theorems -/

/-- C1: for every parameter set with `loan_term_days ≠ 0` and
`total_liquidity ≠ 0`, `calculate_apr` succeeds and derives its
quantities by exactly the fourteen-step formula chain: lent amount,
loan cycles per year, annual volume, merchant fee, delinquent volume,
average late period, late interest, liquidated volume, liquidation
penalty, the three bucket revenues as dot products with the
distribution shares, the liquidator revenue, and
`lp_apr = lp_revenue / total_liquidity * 100`. -/
theorem calculate_apr_formula_chain (p : Params)
    (h1 : p.loan_term_days ≠ 0) (h2 : p.total_liquidity ≠ 0) :
    ∃ r : Report, calculate_apr p = .ok r ∧
      r.lent_amount = p.total_liquidity * p.utilization_ratio ∧
      r.loan_cycles_per_year = 365 / p.loan_term_days ∧
      r.total_annual_loan_volume = r.lent_amount * r.loan_cycles_per_year ∧
      r.total_merchant_fee = r.total_annual_loan_volume * p.merchant_fee_rate ∧
      r.delinquent_volume = r.total_annual_loan_volume * p.delinquency_rate ∧
      r.avg_late_period_in_years = p.loan_term_days / 365 ∧
      r.total_late_interest =
        r.delinquent_volume * p.late_interest_apr * r.avg_late_period_in_years ∧
      r.liquidated_volume = r.delinquent_volume * p.liquidation_rate ∧
      r.total_liquidation_penalty = r.liquidated_volume * p.liquidation_penalty_rate ∧
      r.lp_revenue =
        r.total_merchant_fee * p.merchant_fee_dist.lp_yield +
        r.total_late_interest * p.late_fee_dist.lp_yield +
        r.total_liquidation_penalty * p.liquidation_penalty_dist.lp_yield ∧
      r.treasury_revenue =
        r.total_merchant_fee * p.merchant_fee_dist.treasury +
        r.total_late_interest * p.late_fee_dist.treasury +
        r.total_liquidation_penalty * p.liquidation_penalty_dist.treasury ∧
      r.insurance_fund_revenue =
        r.total_merchant_fee * p.merchant_fee_dist.insurance_fund +
        r.total_late_interest * p.late_fee_dist.insurance_fund +
        r.total_liquidation_penalty * p.liquidation_penalty_dist.insurance_fund ∧
      r.liquidator_revenue =
        r.total_liquidation_penalty * p.liquidation_penalty_dist.liquidator ∧
      r.lp_apr = r.lp_revenue / p.total_liquidity * 100 :=
  ⟨reportOf p, calculate_apr_ok p h1 h2, rfl, rfl, rfl, rfl, rfl, rfl, rfl, rfl,
    rfl, rfl, rfl, rfl, rfl, rfl⟩

/-- C1 witness: the chain applies to the default parameter set. -/
theorem calculate_apr_formula_chain_witness :
    (calculate_apr DEFAULT_PARAMS).isOk = true := by
  obtain ⟨r, hr, -⟩ :=
    calculate_apr_formula_chain DEFAULT_PARAMS (by decide) (by decide)
  rw [hr]
  rfl

/-- C2: arguments that override `loan_term_days` or `total_liquidity` to
zero make the run abort with the division-by-zero error, an outcome
distinct from the argument-format error, carrying no report. -/
theorem degenerate_divisor_aborts (args : List String) (p : Params) (ws : List String)
    (hp : processArgs DEFAULT_PARAMS args = .ok (p, ws))
    (h : p.loan_term_days = 0 ∨ p.total_liquidity = 0) :
    runMain args = .calcError ws .divisionByZero ∧ runMain args ≠ .argError := by
  have hc := calculate_apr_err p h
  constructor
  · simp [runMain, hp, hc]
  · simp [runMain, hp, hc]

/-- C2 witness: overriding `loan_term_days=0` on the command line hits
the division-by-zero abort. -/
theorem degenerate_divisor_aborts_witness :
    runMain ["loan_term_days=0"] = .calcError [] .divisionByZero ∧
    runMain ["loan_term_days=0"] ≠ .argError := by
  have hq : (((1:ℤ) : ℚ) * ((0:ℕ) : ℚ) * (10:ℚ) ^ (0:ℤ)) = 0 := by norm_num
  have hp : processArgs DEFAULT_PARAMS ["loan_term_days=0"] =
      .ok (applyOverride DEFAULT_PARAMS .loan_term_days 0, []) := by
    have h1 : processArgs DEFAULT_PARAMS ["loan_term_days=0"] =
        .ok (applyOverride DEFAULT_PARAMS .loan_term_days
          (((1:ℤ) : ℚ) * ((0:ℕ) : ℚ) * (10:ℚ) ^ (0:ℤ)), []) := rfl
    rw [h1, hq]
  exact degenerate_divisor_aborts ["loan_term_days=0"]
    (applyOverride DEFAULT_PARAMS .loan_term_days 0) [] hp (.inl (by rfl))

/-- C3: whenever each of the three distribution records sums to exactly 1
and the calculation succeeds, the four bucket revenues add up to the
three fee totals — total revenue conservation. -/
theorem revenue_conservation (p : Params) (r : Report)
    (hm : p.merchant_fee_dist.lp_yield + p.merchant_fee_dist.treasury +
      p.merchant_fee_dist.insurance_fund = 1)
    (hl : p.late_fee_dist.lp_yield + p.late_fee_dist.treasury +
      p.late_fee_dist.insurance_fund = 1)
    (hq : p.liquidation_penalty_dist.liquidator + p.liquidation_penalty_dist.lp_yield +
      p.liquidation_penalty_dist.treasury + p.liquidation_penalty_dist.insurance_fund = 1)
    (hr : calculate_apr p = .ok r) :
    r.lp_revenue + r.treasury_revenue + r.insurance_fund_revenue + r.liquidator_revenue
      = r.total_merchant_fee + r.total_late_interest + r.total_liquidation_penalty := by
  obtain ⟨-, -, rfl⟩ := calculate_apr_ok_inv p r hr
  exact dist_conservation
    ((reportOf p).total_merchant_fee) ((reportOf p).total_late_interest)
    ((reportOf p).total_liquidation_penalty)
    p.merchant_fee_dist.lp_yield p.merchant_fee_dist.treasury
    p.merchant_fee_dist.insurance_fund
    p.late_fee_dist.lp_yield p.late_fee_dist.treasury p.late_fee_dist.insurance_fund
    p.liquidation_penalty_dist.liquidator p.liquidation_penalty_dist.lp_yield
    p.liquidation_penalty_dist.treasury p.liquidation_penalty_dist.insurance_fund
    hm hl hq

/-- C3 witness: conservation holds for the default parameter set, whose
distributions each sum to 1. -/
theorem revenue_conservation_witness :
    (reportOf DEFAULT_PARAMS).lp_revenue + (reportOf DEFAULT_PARAMS).treasury_revenue +
        (reportOf DEFAULT_PARAMS).insurance_fund_revenue +
        (reportOf DEFAULT_PARAMS).liquidator_revenue
      = (reportOf DEFAULT_PARAMS).total_merchant_fee +
        (reportOf DEFAULT_PARAMS).total_late_interest +
        (reportOf DEFAULT_PARAMS).total_liquidation_penalty :=
  revenue_conservation DEFAULT_PARAMS (reportOf DEFAULT_PARAMS)
    (by norm_num [DEFAULT_PARAMS]) (by norm_num [DEFAULT_PARAMS])
    (by norm_num [DEFAULT_PARAMS]) (by rfl)

/-- The calculation is a total pure function of the parameter set: it
returns the Report bundling the derived quantities and the echoed pool
size and utilization whenever both divisors are non-zero, and fails
with the explicit division-by-zero error otherwise. (The spec's further
guarantee that report values are finite IEEE-754 doubles is a
floating-point property outside this exact-rational development.) -/
theorem calculation_pure_and_explicit_on_zero (p : Params) :
    calculate_apr p =
      (if p.loan_term_days = 0 ∨ p.total_liquidity = 0
        then .error .divisionByZero
        else .ok (reportOf p)) ∧
    (reportOf p).total_liquidity = p.total_liquidity ∧
    (reportOf p).utilization_ratio = p.utilization_ratio := by
  refine ⟨?_, rfl, rfl⟩
  by_cases h : p.loan_term_days = 0 ∨ p.total_liquidity = 0
  · rw [if_pos h]
    exact calculate_apr_err p h
  · rw [if_neg h]
    push_neg at h
    exact calculate_apr_ok p h.1 h.2

/-- C6: a well-formed `key=value` argument whose key is unknown or names
a non-numeric field leaves the parameters untouched, records a warning
naming the offending key, and processing continues with the remaining
arguments. -/
theorem unknown_key_warns_and_continues (p : Params) (arg k v : String)
    (rest : List String)
    (hs : pySplitEq arg = [k, v]) (hk : numericKey k = none) :
    step p arg = .ok (p, some k) ∧
    processArgs p (arg :: rest) =
      Except.map (fun qw => (qw.1, k :: qw.2)) (processArgs p rest) := by
  have h1 : step p arg = .ok (p, some k) := by
    unfold step
    rw [hs]
    have h2 :
        (match numericKey k with
          | some f =>
            match pyFloat v with
            | some (PyVal.finite val) => Except.ok (applyOverride p f val, none)
            | some _ => Except.error LoopExit.nonFiniteOverride
            | none => Except.error LoopExit.invalidFormat
          | none => Except.ok (p, some k)) = Except.ok (ε := LoopExit) (p, some k) := by
      rw [hk]
    exact h2
  refine ⟨h1, ?_⟩
  have h2 : processArgs p [arg] = .ok (p, [k]) := by
    unfold processArgs
    rw [h1]
    rfl
  have h3 := processArgs_append p [arg] rest
  rw [h2] at h3
  simp only [List.singleton_append] at h3
  refine h3.trans ?_
  cases hr : processArgs p rest with
  | error e => simp [hr, Except.bind, Except.map]
  | ok qw => simp [hr, Except.bind, Except.map]

/-- C6 witness: `foo=5` keeps every default intact, warns about `foo`,
and the next (also unknown) argument is still processed. -/
theorem unknown_key_warns_and_continues_witness :
    step DEFAULT_PARAMS "foo=5" = .ok (DEFAULT_PARAMS, some "foo") ∧
    processArgs DEFAULT_PARAMS ["foo=5", "bar=1"] = .ok (DEFAULT_PARAMS, ["foo", "bar"]) := by
  have h := unknown_key_warns_and_continues DEFAULT_PARAMS "foo=5" "foo" "5" ["bar=1"]
    rfl rfl
  refine ⟨h.1, ?_⟩
  rw [h.2]
  rfl

/-- C7 counterexample: with the default parameters the code yields
`lp_revenue = 336860/3 ≈ 112286.67` and `lp_apr = 16843/1500 ≈ 11.2287`,
not the claimed `111,286.67` and `11.1287%`: both are off by far more
than rounding. -/
theorem default_scenario_lp_revenue_mismatch :
    calculate_apr DEFAULT_PARAMS = .ok (reportOf DEFAULT_PARAMS) ∧
    ¬ (|(reportOf DEFAULT_PARAMS).lp_revenue - 111286.67| ≤ 0.005 ∧
       |(reportOf DEFAULT_PARAMS).lp_apr - 11.1287| ≤ 0.00005) := by
  refine ⟨rfl, fun hcon => ?_⟩
  have h1 := hcon.1
  rw [abs_le] at h1
  have h2 := h1.2
  norm_num [reportOf, DEFAULT_PARAMS] at h2

/-- C7 amended: the default scenario yields, within rounding,
`total_annual_loan_volume = 9,733,333.33`, `total_merchant_fee =
146,000`, `delinquent_volume = 486,666.67`, `total_late_interest =
12,000`, `liquidated_volume = 48,666.67`, `total_liquidation_penalty =
2,433.33`, `lp_revenue = 112,286.67` and `lp_apr = 11.2287%`. -/
theorem default_scenario_values :
    calculate_apr DEFAULT_PARAMS = .ok (reportOf DEFAULT_PARAMS) ∧
    |(reportOf DEFAULT_PARAMS).total_annual_loan_volume - 9733333.33| ≤ 0.005 ∧
    (reportOf DEFAULT_PARAMS).total_merchant_fee = 146000 ∧
    |(reportOf DEFAULT_PARAMS).delinquent_volume - 486666.67| ≤ 0.005 ∧
    (reportOf DEFAULT_PARAMS).total_late_interest = 12000 ∧
    |(reportOf DEFAULT_PARAMS).liquidated_volume - 48666.67| ≤ 0.005 ∧
    |(reportOf DEFAULT_PARAMS).total_liquidation_penalty - 2433.33| ≤ 0.005 ∧
    |(reportOf DEFAULT_PARAMS).lp_revenue - 112286.67| ≤ 0.005 ∧
    |(reportOf DEFAULT_PARAMS).lp_apr - 11.2287| ≤ 0.00005 := by
  refine ⟨rfl, ?_⟩
  norm_num [reportOf, DEFAULT_PARAMS, abs_le]

/-- C8 counterexample: doubling `total_liquidity` from the defaults
leaves `lp_apr` unchanged — it is not divided by 2 — because
`lp_revenue` itself scales with the pool. -/
theorem lp_apr_not_halved_by_doubling_pool :
    (reportOf { DEFAULT_PARAMS with
        total_liquidity := 2 * DEFAULT_PARAMS.total_liquidity }).lp_apr
      = (reportOf DEFAULT_PARAMS).lp_apr ∧
    (reportOf { DEFAULT_PARAMS with
        total_liquidity := 2 * DEFAULT_PARAMS.total_liquidity }).lp_apr
      ≠ (reportOf DEFAULT_PARAMS).lp_apr / 2 := by
  constructor
  · norm_num [reportOf, DEFAULT_PARAMS]
  · norm_num [reportOf, DEFAULT_PARAMS]

/-- C8 amended: scaling `total_liquidity` by a non-zero factor `k`, all
other inputs fixed, multiplies `lp_revenue` by `k` and leaves `lp_apr`
unchanged; the inverse dependence holds only through the identity
`lp_apr = lp_revenue / total_liquidity * 100`, with `lp_revenue` held
fixed rather than recomputed. -/
theorem lp_apr_scale_invariant (p : Params) (k : ℚ) (hk : k ≠ 0) :
    (reportOf { p with total_liquidity := k * p.total_liquidity }).lp_revenue
      = k * (reportOf p).lp_revenue ∧
    (reportOf { p with total_liquidity := k * p.total_liquidity }).lp_apr
      = (reportOf p).lp_apr ∧
    (reportOf p).lp_apr = (reportOf p).lp_revenue / p.total_liquidity * 100 := by
  have happr : ∀ q : Params,
      (reportOf q).lp_apr = (reportOf q).lp_revenue / q.total_liquidity * 100 :=
    fun q => rfl
  have hrev : (reportOf { p with total_liquidity := k * p.total_liquidity }).lp_revenue
      = k * (reportOf p).lp_revenue := by
    simp only [reportOf]
    ring
  refine ⟨hrev, ?_, happr p⟩
  rw [happr, happr, hrev]
  have htl : ({ p with total_liquidity := k * p.total_liquidity } : Params).total_liquidity
      = k * p.total_liquidity := rfl
  rw [htl, mul_div_mul_left _ _ hk]

/-- C8 witness: the scale relations at the defaults with factor 2. -/
theorem lp_apr_scale_invariant_witness :
    (reportOf { DEFAULT_PARAMS with
        total_liquidity := 2 * DEFAULT_PARAMS.total_liquidity }).lp_revenue
      = 2 * (reportOf DEFAULT_PARAMS).lp_revenue ∧
    (reportOf { DEFAULT_PARAMS with
        total_liquidity := 2 * DEFAULT_PARAMS.total_liquidity }).lp_apr
      = (reportOf DEFAULT_PARAMS).lp_apr ∧
    (reportOf DEFAULT_PARAMS).lp_apr
      = (reportOf DEFAULT_PARAMS).lp_revenue / DEFAULT_PARAMS.total_liquidity * 100 :=
  lp_apr_scale_invariant DEFAULT_PARAMS 2 (by norm_num)

/-- C9: with `utilization_ratio = 0` and non-zero divisors, the
calculation succeeds and `lp_apr` and all four revenue figures are
exactly 0. -/
theorem zero_utilization_zero_revenue (p : Params) (h1 : p.loan_term_days ≠ 0)
    (h2 : p.total_liquidity ≠ 0) (hu : p.utilization_ratio = 0) :
    ∃ r : Report, calculate_apr p = .ok r ∧ r.lp_apr = 0 ∧ r.lp_revenue = 0 ∧
      r.treasury_revenue = 0 ∧ r.insurance_fund_revenue = 0 ∧
      r.liquidator_revenue = 0 := by
  refine ⟨reportOf p, calculate_apr_ok p h1 h2, ?_, ?_, ?_, ?_, ?_⟩ <;>
    simp [reportOf, hu]

/-- C9 witness: the zero-utilization collapse at the default pool. -/
theorem zero_utilization_zero_revenue_witness :
    ∃ r : Report, calculate_apr { DEFAULT_PARAMS with utilization_ratio := 0 } = .ok r ∧
      r.lp_apr = 0 ∧ r.lp_revenue = 0 ∧ r.treasury_revenue = 0 ∧
      r.insurance_fund_revenue = 0 ∧ r.liquidator_revenue = 0 :=
  zero_utilization_zero_revenue { DEFAULT_PARAMS with utilization_ratio := 0 }
    (by decide) (by decide) rfl

/-- C10: overrides apply left to right — after a successful run whose
argument `a` assigns numeric field `f` and is not followed by any other
assignment to `f`, the final parameter set holds the value of `a`; and
applying one override never changes any numeric field other than its
own key. -/
theorem last_override_wins (p q : Params) (ws pre post : List String) (a k vs : String)
    (f : NumField) (v : ℚ)
    (hsplit : pySplitEq a = [k, vs]) (hkey : numericKey k = some f)
    (hval : pyFloat vs = some (.finite v))
    (hpost : ∀ b ∈ post, assigns b f = false)
    (hrun : processArgs p (pre ++ a :: post) = .ok (q, ws)) :
    getField q f = v ∧
    (∀ g : NumField, g ≠ f → getField (applyOverride p f v) g = getField p g) := by
  refine ⟨?_, fun g hg => by rw [getField_applyOverride]; exact if_neg hg⟩
  have happ := processArgs_append p pre (a :: post)
  rw [hrun] at happ
  cases hpre : processArgs p pre with
  | error e =>
    rw [hpre] at happ
    simp only [Except.bind] at happ
    cases happ
  | ok qw =>
    rw [hpre] at happ
    simp only [Except.bind] at happ
    have hstep : step qw.1 a = .ok (applyOverride qw.1 f v, none) := by
      unfold step
      rw [hsplit]
      have h2 :
          (match numericKey k with
            | some g =>
              match pyFloat vs with
              | some (PyVal.finite val) => Except.ok (applyOverride qw.1 g val, none)
              | some _ => Except.error LoopExit.nonFiniteOverride
              | none => Except.error LoopExit.invalidFormat
            | none => Except.ok (qw.1, some k))
            = Except.ok (ε := LoopExit) (applyOverride qw.1 f v, none) := by
        rw [hkey, hval]
      exact h2
    have hsingle : processArgs qw.1 [a] = .ok (applyOverride qw.1 f v, []) := by
      unfold processArgs
      rw [hstep]
      rfl
    have happ2 := processArgs_append qw.1 [a] post
    rw [hsingle] at happ2
    simp only [List.singleton_append, Except.bind, List.nil_append] at happ2
    rw [happ2] at happ
    cases hpost2 : processArgs (applyOverride qw.1 f v) post with
    | error e =>
      rw [hpost2] at happ
      simp only [Except.bind] at happ
      cases happ
    | ok qw2 =>
      rw [hpost2] at happ
      simp only [Except.bind] at happ
      have h4 : (q, ws) = (qw2.1, qw.2 ++ qw2.2) := by
        injection happ
      have hq : q = qw2.1 := congrArg Prod.fst h4
      rw [hq]
      have hpres := processArgs_preserves (applyOverride qw.1 f v) post qw2.1 qw2.2 f
        hpost (by rw [hpost2])
      rw [hpres, getField_applyOverride]
      exact if_pos rfl

/-- C10 witness: of two `utilization_ratio` overrides the second one,
`0.9`, ends up in the parameter set. -/
theorem last_override_wins_witness :
    getField (applyOverride (applyOverride DEFAULT_PARAMS .utilization_ratio 0.5)
      .utilization_ratio 0.9) .utilization_ratio = 0.9 := by
  have h05 : (((1:ℤ) : ℚ) * (((0:ℕ) : ℚ) + ((5:ℕ) : ℚ) / 10 ^ (1:ℕ)) * (10:ℚ) ^ (0:ℤ))
      = 0.5 := by norm_num
  have h09 : (((1:ℤ) : ℚ) * (((0:ℕ) : ℚ) + ((9:ℕ) : ℚ) / 10 ^ (1:ℕ)) * (10:ℚ) ^ (0:ℤ))
      = 0.9 := by norm_num
  have hv9 : pyFloat "0.9" = some (.finite 0.9) := by
    have h1 : pyFloat "0.9" = some (.finite
        (((1:ℤ) : ℚ) * (((0:ℕ) : ℚ) + ((9:ℕ) : ℚ) / 10 ^ (1:ℕ)) * (10:ℚ) ^ (0:ℤ))) := rfl
    rw [h1, h09]
  have hrun : processArgs DEFAULT_PARAMS
      (["utilization_ratio=0.5"] ++ "utilization_ratio=0.9" :: []) =
      .ok (applyOverride (applyOverride DEFAULT_PARAMS .utilization_ratio 0.5)
        .utilization_ratio 0.9, []) := by
    have h1 : processArgs DEFAULT_PARAMS
        (["utilization_ratio=0.5"] ++ "utilization_ratio=0.9" :: []) =
        .ok (applyOverride (applyOverride DEFAULT_PARAMS .utilization_ratio
            (((1:ℤ) : ℚ) * (((0:ℕ) : ℚ) + ((5:ℕ) : ℚ) / 10 ^ (1:ℕ)) * (10:ℚ) ^ (0:ℤ)))
          .utilization_ratio
            (((1:ℤ) : ℚ) * (((0:ℕ) : ℚ) + ((9:ℕ) : ℚ) / 10 ^ (1:ℕ)) * (10:ℚ) ^ (0:ℤ)),
          []) := rfl
    rw [h1, h05, h09]
  exact (last_override_wins DEFAULT_PARAMS
    (applyOverride (applyOverride DEFAULT_PARAMS .utilization_ratio 0.5)
      .utilization_ratio 0.9)
    [] ["utilization_ratio=0.5"] [] "utilization_ratio=0.9" "utilization_ratio" "0.9"
    .utilization_ratio 0.9 rfl rfl hv9 (by simp) hrun).1

end CalculateApr
